import Mathlib

/-
Verification of the csv-to-xlsx conversion pipeline (src/csv2xlsx.py).

The program is a linear pipeline: argument resolution, a table load
(pandas read_csv), a table write (pandas to_excel with index=False),
and outcome reporting.  The two pandas collaborators are external to
the repository; their behaviour at each path is modelled as an
environment (Env) supplying the outcome of each call, and the
spreadsheet they produce or consume is modelled from the spec's
collaborator contract.  The program itself (csv_to_xlsx and the
__main__ block) is embedded from the source, line for line.
-/

namespace Csv2Xlsx

/-- Cell values of a table: string, integer, floating point, boolean or
empty/null, as produced by the loader's default type inference (spec section 3).
Floating-point cells are represented by rationals, value for value. -/
inductive Cell where
  | str (s : String)
  | int (n : Int)
  | float (q : Rat)
  | bool (b : Bool)
  | null
deriving DecidableEq, Repr

/-- The in-memory Table of spec section 3: an ordered list of column names and
an ordered list of data rows. -/
structure Table where
  header : List String
  rows : List (List Cell)
deriving DecidableEq, Repr

/-- Spec section 3 invariant: every data row has exactly one value per column. -/
def ValidTable (t : Table) : Prop :=
  ∀ r ∈ t.rows, r.length = t.header.length

instance (t : Table) : Decidable (ValidTable t) := by
  unfold ValidTable; infer_instance

/-- A single-sheet spreadsheet file: the sheet is a list of rows. -/
structure Xlsx where
  sheet : List (List Cell)
deriving DecidableEq, Repr

/-- Modelled from the spec: the output writer collaborator
(pandas DataFrame.to_excel with index=False, not part of src/).  Per spec
sections 4.3 and 6 it produces a single-sheet spreadsheet whose first row is
the header row and whose subsequent rows are the data rows in order,
preserving column order, with no leading row-index column. -/
def xlsxOfTable (t : Table) : Xlsx :=
  ⟨(t.header.map Cell.str) :: t.rows⟩

/-- The name held by a header cell, when it is a string cell. -/
def cellName : Cell → Option String
  | Cell.str s => some s
  | _ => none

/-- The column names held by a header row, when every cell is a string cell. -/
def namesOf : List Cell → Option (List String)
  | [] => some []
  | c :: cs =>
    match cellName c, namesOf cs with
    | some n, some ns => some (n :: ns)
    | _, _ => none

/-- Modelled from the spec: reading a produced spreadsheet back into a Table
(the round-trip collaborator of spec section 8): the first sheet row gives the
column names, the remaining rows are the data rows. -/
def tableOfXlsx (x : Xlsx) : Option Table :=
  match x.sheet with
  | [] => none
  | h :: rs => (namesOf h).map fun names => ⟨names, rs⟩

/-- Outcome of the loader collaborator (pandas read_csv) at a source path:
either a Table, or a raised file-not-found exception, or some other raised
exception carrying a textual description.  Modelled from the spec
(sections 4.2 and 6): the collaborator distinguishes file-not-found from all
other failures. -/
inductive LoadOutcome where
  | ok (t : Table)
  | raiseNotFound
  | raiseOther (msg : String)
deriving DecidableEq, Repr

/-- Outcome of the writer collaborator (pandas to_excel) at a destination
path: success, or a raised file-not-found exception (e.g. the destination
directory does not exist), or some other raised exception carrying a textual
description. -/
inductive WriteOutcome where
  | ok
  | raiseNotFound
  | raiseOther (msg : String)
deriving DecidableEq, Repr

/-- The environment: the (deterministic) behaviour of the two external
collaborators at each path. -/
structure Env where
  load : String → LoadOutcome
  write : String → Table → WriteOutcome

/-- The file-system state observed through written spreadsheet files:
what spreadsheet, if any, each path holds. -/
def FS : Type := String → Option Xlsx

/-- The messages the program prints (src/csv2xlsx.py lines 22, 24, 26, 31,
42, 43), distinguished by shape and by the paths and descriptions they name. -/
inductive Msg where
  | success (src dst : String)
  | notFound (src : String)
  | errorOccurred (desc : String)
  | usage
  | inputEcho (src : String)
  | outputEcho (dst : String)
deriving DecidableEq, Repr

/-- Whether a message is one of the three outcome messages of the conversion
(success, source-not-found, generic error), as opposed to an echo or usage
line. -/
def Msg.isOutcome : Msg → Bool
  | Msg.success _ _ => true
  | Msg.notFound _ => true
  | Msg.errorOccurred _ => true
  | _ => false

/-- Shallow embedding of csv_to_xlsx (src/csv2xlsx.py lines 6 to 26).
The try block performs the load then the write; a FileNotFoundError raised by
either call is caught first and reported with the message naming the source
file; any other exception is caught by the generic handler and reported with
its description; on success the destination file is written and the success
message printed.  Returns the printed messages and the resulting file-system
state. -/
def csv_to_xlsx (env : Env) (fs : FS) (csv_file xlsx_file : String) :
    List Msg × FS :=
  match env.load csv_file with
  | LoadOutcome.raiseNotFound => ([Msg.notFound csv_file], fs)
  | LoadOutcome.raiseOther e => ([Msg.errorOccurred e], fs)
  | LoadOutcome.ok df =>
    match env.write xlsx_file df with
    | WriteOutcome.raiseNotFound => ([Msg.notFound csv_file], fs)
    | WriteOutcome.raiseOther e => ([Msg.errorOccurred e], fs)
    | WriteOutcome.ok =>
        ([Msg.success csv_file xlsx_file],
         fun p => if p = xlsx_file then some (xlsxOfTable df) else fs p)

/-- The observable result of one process run: everything printed, the exit
status, and the final file-system state. -/
structure ProgResult where
  output : List Msg
  exitCode : Nat
  fs : FS

/-- Shallow embedding of the __main__ block (src/csv2xlsx.py lines 28 to 45),
taking the full sys.argv list (program name included).  With any argument
count other than 3 it prints the usage message and exits with status 1; with
exactly 3 it echoes the two paths, runs the conversion and exits with
status 0. -/
def main (env : Env) (fs : FS) (argv : List String) : ProgResult :=
  match argv with
  | [_, input_csv, output_xlsx] =>
    let r := csv_to_xlsx env fs input_csv output_xlsx
    ⟨Msg.inputEcho input_csv :: Msg.outputEcho output_xlsx :: r.1, 0, r.2⟩
  | _ => ⟨[Msg.usage], 1, fs⟩

/-- The message csv_to_xlsx prints for a given write outcome, once the load
has succeeded: success message on ok, the source-not-found message when the
write raises file-not-found, the generic error message otherwise. -/
def writeReport (src dst : String) : WriteOutcome → Msg
  | WriteOutcome.ok => Msg.success src dst
  | WriteOutcome.raiseNotFound => Msg.notFound src
  | WriteOutcome.raiseOther e => Msg.errorOccurred e

/-- Sample table from spec section 8. -/
def tA : Table :=
  ⟨["id", "name"],
   [[Cell.int 1, Cell.str "Alice"], [Cell.int 2, Cell.str "Bob"]]⟩

/-- An environment in which the sample source file loads as tA and every
write succeeds. -/
def envA : Env :=
  ⟨fun p => if p = "input.csv" then LoadOutcome.ok tA else LoadOutcome.raiseNotFound,
   fun _ _ => WriteOutcome.ok⟩

/-- An environment in which every load succeeds but every write raises the
file-not-found exception (for instance because the destination directory does
not exist). -/
def envB : Env :=
  ⟨fun _ => LoadOutcome.ok tA, fun _ _ => WriteOutcome.raiseNotFound⟩

/-- An environment in which every load raises the file-not-found exception. -/
def envC : Env :=
  ⟨fun _ => LoadOutcome.raiseNotFound, fun _ _ => WriteOutcome.ok⟩

/-- An environment in which every load raises a generic parse exception. -/
def envD : Env :=
  ⟨fun _ => LoadOutcome.raiseOther "No columns to parse from file",
   fun _ _ => WriteOutcome.ok⟩

/-- The empty file-system state. -/
def emptyFS : FS := fun _ => none

/-- Whatever the collaborators do, the conversion prints exactly one message,
and it is one of the three outcome messages. -/
theorem outcome_msgs (env : Env) (fs : FS) (src dst : String) :
    ∃ m : Msg, (csv_to_xlsx env fs src dst).1 = [m] ∧ m.isOutcome = true := by
  cases hl : env.load src with
  | raiseNotFound => exact ⟨Msg.notFound src, by simp [csv_to_xlsx, hl], rfl⟩
  | raiseOther e => exact ⟨Msg.errorOccurred e, by simp [csv_to_xlsx, hl], rfl⟩
  | ok df =>
    cases hw : env.write dst df with
    | ok => exact ⟨Msg.success src dst, by simp [csv_to_xlsx, hl, hw], rfl⟩
    | raiseNotFound => exact ⟨Msg.notFound src, by simp [csv_to_xlsx, hl, hw], rfl⟩
    | raiseOther e => exact ⟨Msg.errorOccurred e, by simp [csv_to_xlsx, hl, hw], rfl⟩

/-- Reading back a header row written as string cells recovers the names. -/
theorem namesOf_map_str (l : List String) :
    namesOf (l.map Cell.str) = some l := by
  induction l with
  | nil => rfl
  | cons a l ih => simp [namesOf, cellName, ih]

/-- C1: for every valid input table with N data rows and M columns returned
by the loader for the source path, when the write succeeds the spreadsheet
produced at the destination has exactly N+1 rows (the header row first, then
the N data rows in their original order) and every row has exactly M cells,
with no extra leading column of row-index numbers. -/
theorem c1_conversion_shape (env : Env) (fs : FS) (src dst : String) (t : Table)
    (hload : env.load src = LoadOutcome.ok t)
    (hvalid : ValidTable t)
    (hwrite : env.write dst t = WriteOutcome.ok) :
    ∃ x : Xlsx, (csv_to_xlsx env fs src dst).2 dst = some x ∧
      x.sheet.length = t.rows.length + 1 ∧
      (∀ r ∈ x.sheet, r.length = t.header.length) ∧
      x.sheet.head? = some (t.header.map Cell.str) ∧
      x.sheet.tail = t.rows := by
  refine ⟨xlsxOfTable t, ?_, ?_, ?_, rfl, rfl⟩
  · simp [csv_to_xlsx, hload, hwrite]
  · simp [xlsxOfTable]
  · intro r hr
    simp only [xlsxOfTable, List.mem_cons] at hr
    rcases hr with h | h
    · subst h; simp
    · exact hvalid r h

/-- C1 witness at the spec section 8 sample input. -/
theorem c1_conversion_shape_witness :
    envA.load "input.csv" = LoadOutcome.ok tA ∧ ValidTable tA ∧
    envA.write "output.xlsx" tA = WriteOutcome.ok ∧
    (∃ x : Xlsx,
      (csv_to_xlsx envA emptyFS "input.csv" "output.xlsx").2 "output.xlsx" = some x ∧
      x.sheet.length = tA.rows.length + 1 ∧
      (∀ r ∈ x.sheet, r.length = tA.header.length) ∧
      x.sheet.head? = some (tA.header.map Cell.str) ∧
      x.sheet.tail = tA.rows) :=
  ⟨by decide, by decide, by decide,
   c1_conversion_shape envA emptyFS "input.csv" "output.xlsx" tA
     (by decide) (by decide) (by decide)⟩

/-- C2 counterexample: in an environment where the load succeeds and the
write step fails by raising the file-not-found exception (as happens when the
destination directory does not exist), the program reports the NotFoundError
message naming the source file, not a generic error carrying the cause. -/
theorem c2_counterexample :
    envB.load "input.csv" = LoadOutcome.ok tA ∧
    envB.write "nodir/output.xlsx" tA = WriteOutcome.raiseNotFound ∧
    (csv_to_xlsx envB emptyFS "input.csv" "nodir/output.xlsx").1 =
      [Msg.notFound "input.csv"] :=
  ⟨rfl, rfl, rfl⟩

/-- C2 amended: once the load has succeeded, the conversion reports the write
outcome as writeReport does: a write failure raising any exception other than
file-not-found is reported with the generic error message carrying the
underlying cause's description, but a write failure raising the
file-not-found exception is caught by the not-found handler and reported with
the NotFoundError message naming the source file. -/
theorem c2_write_failure_reporting (env : Env) (fs : FS) (src dst : String)
    (t : Table) (hload : env.load src = LoadOutcome.ok t) :
    (csv_to_xlsx env fs src dst).1 = [writeReport src dst (env.write dst t)] := by
  cases hw : env.write dst t <;> simp [csv_to_xlsx, hload, hw, writeReport]

/-- C2 witness: the amended reporting rule applied in the environment whose
writes raise file-not-found. -/
theorem c2_write_failure_reporting_witness :
    envB.load "input.csv" = LoadOutcome.ok tA ∧
    (csv_to_xlsx envB emptyFS "input.csv" "nodir/output.xlsx").1 =
      [writeReport "input.csv" "nodir/output.xlsx"
        (envB.write "nodir/output.xlsx" tA)] :=
  ⟨rfl, c2_write_failure_reporting envB emptyFS "input.csv" "nodir/output.xlsx" tA rfl⟩

/-- C3: with an argument count other than 2 (excluding the program name) the
program prints exactly the usage message, exits with status 1, and performs
no conversion work (the file system is unchanged); with exactly 2 arguments
the usage message is never printed, whatever the collaborators do. -/
theorem c3_usage_policy (env : Env) (fs : FS) (prog src dst : String)
    (args : List String) (h : args.length ≠ 2) :
    main env fs (prog :: args) = ⟨[Msg.usage], 1, fs⟩ ∧
    Msg.usage ∉ (main env fs [prog, src, dst]).output := by
  constructor
  · match args, h with
    | [], _ => rfl
    | [a], _ => rfl
    | [a, b], h => exact absurd rfl h
    | a :: b :: c :: rest, _ => rfl
  · intro hmem
    obtain ⟨m, hm, ho⟩ := outcome_msgs env fs src dst
    simp only [main, hm, List.mem_cons, List.not_mem_nil, or_false] at hmem
    rcases hmem with h1 | h1 | h1
    · exact Msg.noConfusion h1
    · exact Msg.noConfusion h1
    · rw [← h1] at ho
      simp [Msg.isOutcome] at ho

/-- C3 witness: a zero-argument invocation and a two-argument invocation. -/
theorem c3_usage_policy_witness :
    ([] : List String).length ≠ 2 ∧
    (main envA emptyFS ("prog" :: []) = ⟨[Msg.usage], 1, emptyFS⟩ ∧
     Msg.usage ∉ (main envA emptyFS ["prog", "input.csv", "output.xlsx"]).output) :=
  ⟨by decide,
   c3_usage_policy envA emptyFS "prog" "input.csv" "output.xlsx" [] (by decide)⟩

/-- C4: when the source path does not resolve to a readable file (the loader
raises file-not-found), a two-argument invocation prints the message naming
the missing source path and leaves the file system unchanged, so the
destination file is neither created nor overwritten. -/
theorem c4_not_found (env : Env) (fs : FS) (prog src dst : String)
    (hload : env.load src = LoadOutcome.raiseNotFound) :
    (main env fs [prog, src, dst]).output =
      [Msg.inputEcho src, Msg.outputEcho dst, Msg.notFound src] ∧
    (main env fs [prog, src, dst]).fs = fs := by
  constructor <;> simp [main, csv_to_xlsx, hload]

/-- C4 witness in the environment whose loads raise file-not-found. -/
theorem c4_not_found_witness :
    envC.load "missing.csv" = LoadOutcome.raiseNotFound ∧
    ((main envC emptyFS ["prog", "missing.csv", "output.xlsx"]).output =
      [Msg.inputEcho "missing.csv", Msg.outputEcho "output.xlsx",
       Msg.notFound "missing.csv"] ∧
     (main envC emptyFS ["prog", "missing.csv", "output.xlsx"]).fs = emptyFS) :=
  ⟨rfl, c4_not_found envC emptyFS "prog" "missing.csv" "output.xlsx" rfl⟩

/-- C5: every two-argument invocation exits with status 0 whatever the
collaborators do (success, not-found or any other failure), and every
invocation with a different argument count exits with status 1. -/
theorem c5_exit_codes (env : Env) (fs : FS) (prog src dst : String)
    (args : List String) (h : args.length ≠ 2) :
    (main env fs [prog, src, dst]).exitCode = 0 ∧
    (main env fs (prog :: args)).exitCode = 1 := by
  constructor
  · rfl
  · match args, h with
    | [], _ => rfl
    | [a], _ => rfl
    | [a, b], h => exact absurd rfl h
    | a :: b :: c :: rest, _ => rfl

/-- C5 witness: a two-argument invocation and a one-argument invocation. -/
theorem c5_exit_codes_witness :
    (["extra"] : List String).length ≠ 2 ∧
    ((main envD emptyFS ["prog", "input.csv", "output.xlsx"]).exitCode = 0 ∧
     (main envD emptyFS ("prog" :: ["extra"])).exitCode = 1) :=
  ⟨by decide,
   c5_exit_codes envD emptyFS "prog" "input.csv" "output.xlsx" ["extra"] (by decide)⟩

/-- C6: when the source exists but is not valid delimited text (the loader
raises a generic exception, including the malformed, encoding-error and
empty-file cases), a two-argument invocation prints the generic failure
message carrying the cause's description and leaves the file system
unchanged, so no partially-written destination file is left behind. -/
theorem c6_invalid_source (env : Env) (fs : FS) (prog src dst e : String)
    (hload : env.load src = LoadOutcome.raiseOther e) :
    (main env fs [prog, src, dst]).output =
      [Msg.inputEcho src, Msg.outputEcho dst, Msg.errorOccurred e] ∧
    (main env fs [prog, src, dst]).fs = fs := by
  constructor <;> simp [main, csv_to_xlsx, hload]

/-- C6 witness in the environment whose loads raise a generic parse error. -/
theorem c6_invalid_source_witness :
    envD.load "garbage.bin" = LoadOutcome.raiseOther "No columns to parse from file" ∧
    ((main envD emptyFS ["prog", "garbage.bin", "output.xlsx"]).output =
      [Msg.inputEcho "garbage.bin", Msg.outputEcho "output.xlsx",
       Msg.errorOccurred "No columns to parse from file"] ∧
     (main envD emptyFS ["prog", "garbage.bin", "output.xlsx"]).fs = emptyFS) :=
  ⟨rfl, c6_invalid_source envD emptyFS "prog" "garbage.bin" "output.xlsx"
    "No columns to parse from file" rfl⟩

/-- C7: no failure of the load or write step escapes the reporting boundary:
whatever the collaborators do, the conversion returns normally with exactly
one printed outcome message, and a two-path invocation always terminates
normally with exit status 0; only the usage path terminates abnormally. -/
theorem c7_no_escape (env : Env) (fs : FS) (prog src dst : String) :
    (∃ m : Msg, (csv_to_xlsx env fs src dst).1 = [m] ∧ m.isOutcome = true) ∧
    (main env fs [prog, src, dst]).exitCode = 0 :=
  ⟨outcome_msgs env fs src dst, rfl⟩

/-- C8: round trip: reading the spreadsheet file produced by a successful
conversion back as a table recovers exactly the original input table, value
for value. -/
theorem c8_round_trip (env : Env) (fs : FS) (src dst : String) (t : Table)
    (hload : env.load src = LoadOutcome.ok t)
    (hwrite : env.write dst t = WriteOutcome.ok) :
    ∃ x : Xlsx, (csv_to_xlsx env fs src dst).2 dst = some x ∧
      tableOfXlsx x = some t := by
  refine ⟨xlsxOfTable t, ?_, ?_⟩
  · simp [csv_to_xlsx, hload, hwrite]
  · simp [tableOfXlsx, xlsxOfTable, namesOf_map_str]

/-- C8 witness at the spec section 8 sample input. -/
theorem c8_round_trip_witness :
    envA.load "input.csv" = LoadOutcome.ok tA ∧
    envA.write "output.xlsx" tA = WriteOutcome.ok ∧
    (∃ x : Xlsx,
      (csv_to_xlsx envA emptyFS "input.csv" "output.xlsx").2 "output.xlsx" = some x ∧
      tableOfXlsx x = some tA) :=
  ⟨by decide, by decide,
   c8_round_trip envA emptyFS "input.csv" "output.xlsx" tA (by decide) (by decide)⟩

/-- C9: idempotence: converting the same source to the same destination twice
in the same deterministic environment prints the same messages and yields the
same file-system state as converting it once; in particular the destination
file after the second conversion is identical to the one after the first. -/
theorem c9_idempotent (env : Env) (fs : FS) (src dst : String) :
    csv_to_xlsx env (csv_to_xlsx env fs src dst).2 src dst =
      csv_to_xlsx env fs src dst := by
  cases hl : env.load src with
  | raiseNotFound => simp [csv_to_xlsx, hl]
  | raiseOther e => simp [csv_to_xlsx, hl]
  | ok df =>
    cases hw : env.write dst df with
    | raiseNotFound => simp [csv_to_xlsx, hl, hw]
    | raiseOther e => simp [csv_to_xlsx, hl, hw]
    | ok =>
      simp only [csv_to_xlsx, hl, hw]
      refine congrArg (Prod.mk _) ?_
      funext p
      by_cases hp : p = dst <;> simp [hp]

/-- C10: every invocation with exactly two arguments prints the two path-echo
lines first (source then destination, exactly as given) and then exactly one
outcome message: the whole output is the two echoes followed by a single
message that is one of success, not-found or generic error, and the output
contains exactly one outcome message in total. -/
theorem c10_echo_then_outcome (env : Env) (fs : FS) (prog src dst : String) :
    ∃ m : Msg, m.isOutcome = true ∧
      (main env fs [prog, src, dst]).output =
        [Msg.inputEcho src, Msg.outputEcho dst, m] ∧
      ((main env fs [prog, src, dst]).output.filter Msg.isOutcome).length = 1 := by
  obtain ⟨m, hm, ho⟩ := outcome_msgs env fs src dst
  refine ⟨m, ho, ?_, ?_⟩
  · simp [main, hm]
  · simp only [main, hm, List.filter_cons, ho]
    simp [Msg.isOutcome]

end Csv2Xlsx
